import Mathlib

/-!
Verification of the instrument field-binding and command-synchronization core
(`pymeasure/instruments/instrument.py`).

The development shallowly embeds the `Instrument` class: the adapter
(transport) becomes an explicit state record, each method becomes a state
passing function returning an `Outcome` (a result, the updated transport, and
the list of externally visible transport events it produced), and Python
exceptions become an explicit error type `PyErr` whose constructors name the
Python exception classes the source raises.
-/

/-- Python exception classes raised by the source (or by the runtime on its
behalf).  `exceptionBase` is the bare `Exception` base class, raised by
`stb_polling` on timeout; `transportError` stands for the adapter-level error
classes (e.g. pyvisa errors), which are proper subclasses of `Exception`. -/
inductive PyErr where
  | valueError (msg : String)
  | lookupError (msg : String)
  | attributeError (msg : String)
  | indexError (msg : String)
  | keyError (msg : String)
  | typeError (msg : String)
  | transportError (msg : String)
  | exceptionBase (msg : String)
deriving DecidableEq, Repr

/-- Dynamic scalar values exchanged with the device: integers, rationals
(standing for Python floats; the tokens handled here are exact decimals),
strings and booleans. -/
inductive PyVal where
  | int (n : Int)
  | rat (q : Rat)
  | str (s : String)
  | bool (b : Bool)
deriving DecidableEq, Repr

/-- The `values` argument of `control` / `measurement` / `setting`:
a list, tuple or range (an ordered sequence, modelled by the list of its
elements in order), a dictionary (modelled as its key/value pairs in
insertion order, keys distinct), or a value of any other Python type
(`other`, carrying the type name used in the error message). -/
inductive Domain where
  | seq (xs : List PyVal)
  | dict (pairs : List (PyVal × PyVal))
  | other (tyName : String)
deriving DecidableEq, Repr

/-- Externally visible transport events, in the order they happen:
`send` is `adapter.write`, `readLine` is `adapter.read`, `readVals` is
`adapter.values`, `readStb` is `read_stb`, `sleep` is `time.sleep`, and
`maskCheck` / `timeoutCheck` record the two tests of the `stb_polling`
loop with their outcome. -/
inductive Ev where
  | send (c : String)
  | readLine (s : String)
  | readVals (c : String) (vs : List PyVal)
  | readStb (v : Nat)
  | sleep (d : Rat)
  | maskCheck (ok : Bool)
  | timeoutCheck (expired : Bool)
deriving DecidableEq, Repr

/-! ## String helpers (Python `str` operations used by the source) -/

/-- Python `str.strip()`: remove leading and trailing whitespace. -/
def pyStrip (s : String) : String :=
  String.mk (((s.data.dropWhile Char.isWhitespace).reverse.dropWhile
    Char.isWhitespace).reverse)

/-- Python `str.split(sep)` for a one-character separator `sep` (the source
only ever splits on the one-character strings `";"` and `","`).  The result is
never empty, and splitting the empty string yields one empty segment, as in
Python. -/
def pySplit (sep : Char) : List Char → List (List Char)
  | [] => [[]]
  | c :: cs =>
    if c = sep then [] :: pySplit sep cs
    else
      match pySplit sep cs with
      | [] => [[c]]
      | seg :: segs => (c :: seg) :: segs

/-- `s.split(sep)[0]`, the first separator-delimited segment of `s`. -/
def splitFirst (sep : Char) (s : String) : String :=
  String.mk ((pySplit sep s.data).headD [])

def digitsToNat (l : List Char) : Nat :=
  l.foldl (fun a c => a * 10 + (c.toNat - 48)) 0

/-- Unsigned part of a Python `float` literal: digits with an optional single
decimal point, at least one digit in total (Python accepts `"1."` and
`".5"`). -/
def parseUnsignedRat (l : List Char) : Option Rat :=
  let ip := l.takeWhile Char.isDigit
  let rest := l.dropWhile Char.isDigit
  match rest with
  | [] => if ip.isEmpty then none else some (digitsToNat ip : Rat)
  | '.' :: fp =>
    if fp.all Char.isDigit && !(ip.isEmpty && fp.isEmpty) then
      some ((digitsToNat ip : Rat) + (digitsToNat fp : Rat) / ((10 : Rat) ^ fp.length))
    else none
  | _ => none

/-- Model of the Python builtin `float(token)` on the string tokens this core
decodes: optional surrounding whitespace, optional sign, plain decimal
literal.  (Exponent, infinity and nan forms are outside the grammar handled
here; tokens outside the grammar fail to parse, as `"abc"` does in Python.) -/
def pyFloat (s : String) : Option Rat :=
  match (pyStrip s).data with
  | '+' :: rest => parseUnsignedRat rest
  | '-' :: rest => (parseUnsignedRat rest).map (fun q => -q)
  | l => parseUnsignedRat l

/-- Model of the Python builtin `int(token)` on strings: optional whitespace,
optional sign, one or more digits. -/
def pyIntStr (s : String) : Except PyErr Int :=
  let fail : Except PyErr Int := .error (.valueError "invalid literal for int")
  match (pyStrip s).data with
  | '+' :: ds =>
    if !ds.isEmpty && ds.all Char.isDigit then .ok (digitsToNat ds) else fail
  | '-' :: ds =>
    if !ds.isEmpty && ds.all Char.isDigit then .ok (-(digitsToNat ds : Int))
    else fail
  | ds =>
    if !ds.isEmpty && ds.all Char.isDigit then .ok (digitsToNat ds) else fail

/-- Python `int(value)` on a dynamic value: identity on integers, truncation
toward zero on floats, 0/1 on booleans, strict parse on strings. -/
def pyInt : PyVal → Except PyErr Int
  | .int n => .ok n
  | .rat q => .ok (Int.tdiv q.num q.den)
  | .bool b => .ok (if b then 1 else 0)
  | .str s => pyIntStr s

/-! ## Sequence and dictionary helpers (Python `list` / `dict` operations) -/

/-- Python `xs.index(v)`: index of the first element equal (by value) to `v`,
or `none` when `v` does not occur. -/
def pyIndexCore (v : PyVal) : List PyVal → Option Nat
  | [] => none
  | x :: xs => if x = v then some 0 else (pyIndexCore v xs).map (· + 1)

/-- Python `xs[n]` with negative-index wrap-around and `IndexError` when out
of range. -/
def pyGetItem (xs : List PyVal) (n : Int) : Except PyErr PyVal :=
  let i := if n < 0 then n + xs.length else n
  if 0 ≤ i then
    match xs.get? i.toNat with
    | some a => .ok a
    | none => .error (.indexError "list index out of range")
  else .error (.indexError "list index out of range")

/-- Python `d[k] = v` on an association-list model of a dict: replace an
existing binding of `k`, else append a new one (so later assignments win). -/
def dictInsert (pairs : List (PyVal × PyVal)) (k v : PyVal) :
    List (PyVal × PyVal) :=
  if pairs.any (fun p => p.1 = k) then
    pairs.map (fun p => if p.1 = k then (k, v) else p)
  else pairs ++ [(k, v)]

/-- The binding-time inverse dictionary of `control` / `measurement` /
`setting`: the comprehension swapping every key/value pair, later pairs
overwriting earlier ones. -/
def invertDict (pairs : List (PyVal × PyVal)) : List (PyVal × PyVal) :=
  pairs.foldl (fun acc p => dictInsert acc p.2 p.1) []

/-- Python `d[k]` lookup: value of the first (hence only) binding of `k`,
`KeyError` when absent. -/
def dictGet (pairs : List (PyVal × PyVal)) (k : PyVal) : Except PyErr PyVal :=
  match pairs.find? (fun p => p.1 = k) with
  | some p => .ok p.2
  | none => .error (.keyError "key not found")

/-! ## Transport state and primitives -/

/-- The adapter collaborator plus the ambient wall clock, as explicit state:
`replies` is the queue of pending `read()` responses, `valueReplies` the
queue of pending `values()` responses, `stb i` the status byte returned by
the `i`-th `read_stb` call, `stbReads` the number of `read_stb` calls made so
far, and `clock` the wall-clock time in seconds (advanced only by `sleep`,
the sole suspension point of the polling loop). -/
structure Transport where
  replies : List String
  valueReplies : List (List PyVal)
  stb : Nat → Nat
  stbReads : Nat
  clock : Rat

/-- Result of one embedded operation: the Python return value or the raised
exception, the transport state afterwards, and the transport events emitted
(oldest first).  The state is returned even on error, as in Python, where an
exception leaves the adapter in whatever state it had reached. -/
structure Outcome (α : Type) where
  res : Except PyErr α
  t : Transport
  evs : List Ev

/-- `self.write(command)` (via `adapter.write`): fire-and-forget send. -/
def wr (c : String) (t : Transport) : Outcome Unit :=
  ⟨.ok (), t, [.send c]⟩

/-- `self.read()` (via `adapter.read`): pop the next pending response; a
missing response is a transport-layer failure. -/
def rd (t : Transport) : Outcome String :=
  match t.replies with
  | [] => ⟨.error (.transportError "no response available"), t, []⟩
  | r :: rs => ⟨.ok r, { t with replies := rs }, [.readLine r]⟩

/-- `self.ask(command)` (via `adapter.ask`): write the command, then read the
response. -/
def askT (c : String) (t : Transport) : Outcome String :=
  let o1 := wr c t
  let o2 := rd o1.t
  ⟨o2.res, o2.t, o1.evs ++ o2.evs⟩

/-- `self.values(command)` (via `adapter.values`): issue the command and
return the next pending tokenized response. -/
def tValues (c : String) (t : Transport) : Outcome (List PyVal) :=
  match t.valueReplies with
  | [] => ⟨.error (.transportError "no response available"), t, []⟩
  | vs :: rest =>
    ⟨.ok vs, { t with valueReplies := rest }, [.send c, .readVals c vs]⟩

/-- `self.read_stb()`: read the status byte (the next value of the `stb`
stream). -/
def readStbT (t : Transport) : Outcome Nat :=
  let v := t.stb t.stbReads
  ⟨.ok v, { t with stbReads := t.stbReads + 1 }, [.readStb v]⟩

/-- The keyword parameters of `stb_polling` (`timeout=2`, `interval=0.1`,
`mask=0b00100000`), plus `fuel`, a bound on the number of loop iterations the
embedding will unfold (a model artifact standing for the unbounded `while
True`; every theorem either fixes it concretely or hypothesizes it large
enough for the loop to resolve). -/
structure SyncParams where
  timeout : Rat
  interval : Rat
  mask : Nat
  fuel : Nat
deriving Repr

/-- The default synchronization parameters of the source. -/
def defaultSP : SyncParams := ⟨2, 1 / 10, 32, 100⟩

/-! ## Synchronization engine (`stb_polling`, `write_sync`, `ask_sync`,
`values_sync`, source lines 147-223) -/

/-- The body of `stb_polling`'s `while True` loop: read the status byte,
sleep the interval, compute the elapsed time since `start`, break with the
status byte when `stb & mask` is nonzero, raise the bare
`Exception("STB polling timeout")` when the elapsed time exceeds the
timeout, else iterate.  `fuel` bounds the unfolding of the unbounded loop. -/
def stbPollingLoop (timeout interval : Rat) (mask : Nat) (start : Rat) :
    Nat → Transport → Outcome Nat
  | 0, t => ⟨.error (.exceptionBase "model loop bound exhausted"), t, []⟩
  | Nat.succ fuel, t =>
    let stb := t.stb t.stbReads
    let t1 : Transport := { t with stbReads := t.stbReads + 1 }
    let t2 : Transport := { t1 with clock := t1.clock + interval }
    let elapsed := t2.clock - start
    let headEvs : List Ev :=
      [.readStb stb, .sleep interval, .maskCheck (stb &&& mask != 0)]
    if stb &&& mask != 0 then ⟨.ok stb, t2, headEvs⟩
    else if elapsed > timeout then
      ⟨.error (.exceptionBase "STB polling timeout"), t2,
        headEvs ++ [.timeoutCheck true]⟩
    else
      let rest := stbPollingLoop timeout interval mask start fuel t2
      ⟨rest.res, rest.t, (headEvs ++ [.timeoutCheck false]) ++ rest.evs⟩

/-- `Instrument.stb_polling(timeout, interval, mask)`: poll the status byte
until the mask condition holds, with `start = time.time()` taken at entry. -/
def stb_polling (sp : SyncParams) (t : Transport) : Outcome Nat :=
  stbPollingLoop sp.timeout sp.interval sp.mask t.clock sp.fuel t

/-- `Instrument.write_sync(command, sync_method, **kwargs)`:
`"opc_query"` writes the command with the `";*OPC?"` suffix and reads the
reply; `"stb_polling"` writes `"*ESE 1"`, asks `"*ESE?"` and `"*ESR?"`,
writes the command with the `";*OPC"` suffix and polls the status byte;
every other method string falls into the `else` branch, a plain write. -/
def write_sync (command : String) (sync_method : String) (sp : SyncParams)
    (t : Transport) : Outcome Unit :=
  if sync_method = "opc_query" then
    let o1 := wr (command ++ ";*OPC?") t
    let o2 := rd o1.t
    ⟨o2.res.map (fun _ => ()), o2.t, o1.evs ++ o2.evs⟩
  else if sync_method = "stb_polling" then
    let o1 := wr "*ESE 1" t
    let o2 := askT "*ESE?" o1.t
    match o2.res with
    | .error e => ⟨.error e, o2.t, o1.evs ++ o2.evs⟩
    | .ok _ =>
      let o3 := askT "*ESR?" o2.t
      match o3.res with
      | .error e => ⟨.error e, o3.t, o1.evs ++ o2.evs ++ o3.evs⟩
      | .ok _ =>
        let o4 := wr (command ++ ";*OPC") o3.t
        let o5 := stb_polling sp o4.t
        ⟨o5.res.map (fun _ => ()), o5.t,
          o1.evs ++ o2.evs ++ o3.evs ++ o4.evs ++ o5.evs⟩
  else
    let o := wr command t
    ⟨.ok (), o.t, o.evs⟩

/-- `Instrument.ask_sync(command, sync_method, **kwargs)`: obtain the raw
response per method (`"opc_query"`: compound write then read;
`"stb_polling"`: `write_sync` then read; anything else: plain ask), then
return `result.split(";")[0]`. -/
def ask_sync (command : String) (sync_method : String) (sp : SyncParams)
    (t : Transport) : Outcome String :=
  let o : Outcome String :=
    if sync_method = "opc_query" then
      let o1 := wr (command ++ ";*OPC?") t
      let o2 := rd o1.t
      ⟨o2.res, o2.t, o1.evs ++ o2.evs⟩
    else if sync_method = "stb_polling" then
      let o1 := write_sync command sync_method sp t
      match o1.res with
      | .error e => ⟨.error e, o1.t, o1.evs⟩
      | .ok _ =>
        let o2 := rd o1.t
        ⟨o2.res, o2.t, o1.evs ++ o2.evs⟩
    else askT command t
  match o.res with
  | .error e => ⟨.error e, o.t, o.evs⟩
  | .ok result => ⟨.ok (splitFirst ';' result), o.t, o.evs⟩

/-- The `cast` argument of `values_sync`: one of the Python callables the
source names (`float` is the default, `bool` triggers the numeric-first
branch, `int` and `str` are further plain casts). -/
inductive CastKind where
  | toFloat
  | toBool
  | toInt
  | toStr
deriving DecidableEq, Repr

/-- The per-token cast of `values_sync`: for `bool`, parse as a number first
(`bool(float(result))`), since `bool` of a non-empty string is always true;
for the other casts apply them directly; on any casting failure keep the
token as its original string. -/
def applyCast : CastKind → String → PyVal
  | .toBool, s =>
    match pyFloat s with
    | some q => .bool (decide (q ≠ 0))
    | none => .str s
  | .toFloat, s =>
    match pyFloat s with
    | some q => .rat q
    | none => .str s
  | .toInt, s =>
    match pyIntStr s with
    | .ok n => .int n
    | .error _ => .str s
  | .toStr, s => .str s

/-- `Instrument.values_sync(command, separator, cast, sync_method,
**kwargs)`: ask, strip the response, split it on the separator, and cast
each token with string fallback. -/
def values_sync (command : String) (separator : Char) (cast : CastKind)
    (sync_method : String) (sp : SyncParams) (t : Transport) :
    Outcome (List PyVal) :=
  let o := ask_sync command sync_method sp t
  match o.res with
  | .error e => ⟨.error e, o.t, o.evs⟩
  | .ok r =>
    let toks := (pySplit separator (pyStrip r).data).map (fun cs => String.mk cs)
    ⟨.ok (toks.map (applyCast cast)), o.t, o.evs⟩

/-! ## Field binding generator (`control`, `measurement`, `setting`,
source lines 225-434) -/

/-- The encode step of the set path (`control.fset` / `setting.fset`, the
`map_values` branch): ordered sequences encode as `values.index(value)`,
dictionaries as `values[value]`, and any other domain kind raises the
configuration `ValueError`. -/
def controlEncode (values : Domain) (v : PyVal) : Except PyErr PyVal :=
  match values with
  | .seq xs =>
    match pyIndexCore v xs with
    | some i => .ok (.int i)
    | none => .error (.valueError "value is not in sequence")
  | .dict pairs => dictGet pairs v
  | .other ty =>
    .error (.valueError ("Values of type " ++ ty ++
      " are not allowed for Instrument.control"))

/-- The decode step of the get path (`control.fget` / `measurement.fget`,
the `map_values` branch on a single-token read): ordered sequences decode as
`values[int(value)]`, dictionaries through the precomputed inverse mapping,
and any other domain kind raises the configuration `ValueError`. -/
def controlDecode (values : Domain) (value : PyVal) : Except PyErr PyVal :=
  match values with
  | .seq xs =>
    match pyInt value with
    | .ok n => pyGetItem xs n
    | .error e => .error e
  | .dict pairs => dictGet (invertDict pairs) value
  | .other ty =>
    .error (.valueError ("Values of type " ++ ty ++
      " are not allowed for Instrument.control"))

/-- A get path returns either the processed single token or, when the read
yields a token count other than one, the processed whole token list. -/
inductive GetResult where
  | scalar (v : PyVal)
  | multi (vs : List PyVal)
deriving DecidableEq, Repr

/-- The configuration captured by one `Instrument.control(...)` binding.
`setFmt` is the closed template application `set_command % value`.  The
source passes the one dynamic hook `get_process` both the single token and
the full token list; the embedding splits it by arity into `getProcess` and
`getProcessMulti`, both defaulting to the identity as the source default
does.  `sp` gathers the `**kwargs` forwarded to the synchronization
engine. -/
structure ControlCfg where
  getCommand : String
  setFmt : PyVal → String
  validator : PyVal → Domain → Except PyErr PyVal
  values : Domain
  mapValues : Bool
  getProcess : PyVal → Except PyErr PyVal
  getProcessMulti : List PyVal → Except PyErr (List PyVal)
  setProcess : PyVal → Except PyErr PyVal
  checkSetErrors : Bool
  checkGetErrors : Bool
  getSyncMethod : Option String
  setSyncMethod : Option String
  sp : SyncParams

/-- `control`'s `fget` (source lines 260-286): dispatch on
`get_sync_method` (`None`: plain `values`; a recognized method:
`values_sync`; anything else: raise `ValueError` before any transport
operation), then `check_errors` when requested (a no-op in this core), then
on a single token apply `get_process` and, when `map_values` is set, decode
through the domain; on any other token count apply `get_process` to the
whole list. -/
def controlFget (cfg : ControlCfg) (t : Transport) : Outcome GetResult :=
  let step : Outcome (List PyVal) :=
    match cfg.getSyncMethod with
    | none => tValues cfg.getCommand t
    | some m =>
      if m = "opc_query" ∨ m = "stb_polling" then
        values_sync cfg.getCommand ',' .toFloat m cfg.sp t
      else
        ⟨.error (.valueError (m ++ " is not in [opc_query, stb_polling]")),
          t, []⟩
  match step.res with
  | .error e => ⟨.error e, step.t, step.evs⟩
  | .ok vals =>
    match vals with
    | [v0] =>
      match cfg.getProcess v0 with
      | .error e => ⟨.error e, step.t, step.evs⟩
      | .ok value =>
        if !cfg.mapValues then ⟨.ok (.scalar value), step.t, step.evs⟩
        else
          match controlDecode cfg.values value with
          | .ok w => ⟨.ok (.scalar w), step.t, step.evs⟩
          | .error e => ⟨.error e, step.t, step.evs⟩
    | _ =>
      match cfg.getProcessMulti vals with
      | .error e => ⟨.error e, step.t, step.evs⟩
      | .ok ws => ⟨.ok (.multi ws), step.t, step.evs⟩

/-- `control`'s `fset` (source lines 288-309): `set_process(validator(value,
values))`, then the `map_values` encode step, then dispatch on
`set_sync_method` (`None`: plain write of `set_command % value`; a
recognized method: `write_sync`; anything else: raise `ValueError`), then
`check_errors` when requested (a no-op in this core). -/
def controlFset (cfg : ControlCfg) (v : PyVal) (t : Transport) :
    Outcome Unit :=
  match cfg.validator v cfg.values with
  | .error e => ⟨.error e, t, []⟩
  | .ok v1 =>
    match cfg.setProcess v1 with
    | .error e => ⟨.error e, t, []⟩
    | .ok v2 =>
      let enc : Except PyErr PyVal :=
        if !cfg.mapValues then .ok v2 else controlEncode cfg.values v2
      match enc with
      | .error e => ⟨.error e, t, []⟩
      | .ok v3 =>
        match cfg.setSyncMethod with
        | none => wr (cfg.setFmt v3) t
        | some m =>
          if m = "opc_query" ∨ m = "stb_polling" then
            write_sync (cfg.setFmt v3) m cfg.sp t
          else
            ⟨.error (.valueError (m ++ " is not in [opc_query, stb_polling]")),
              t, []⟩

/-- The configuration captured by one `Instrument.measurement(...)`
binding. -/
structure MeasurementCfg where
  getCommand : String
  values : Domain
  mapValues : Bool
  getProcess : PyVal → Except PyErr PyVal
  getProcessMulti : List PyVal → Except PyErr (List PyVal)
  commandProcess : String → String
  checkGetErrors : Bool
  getSyncMethod : Option String
  sp : SyncParams

/-- `measurement`'s `fget` (source lines 345-369): identical to `control`'s
get path, with the command first passed through `command_process`. -/
def measurementFget (cfg : MeasurementCfg) (t : Transport) :
    Outcome GetResult :=
  let cmd := cfg.commandProcess cfg.getCommand
  let step : Outcome (List PyVal) :=
    match cfg.getSyncMethod with
    | none => tValues cmd t
    | some m =>
      if m = "opc_query" ∨ m = "stb_polling" then
        values_sync cmd ',' .toFloat m cfg.sp t
      else
        ⟨.error (.valueError (m ++ " is not in [opc_query, stb_polling]")),
          t, []⟩
  match step.res with
  | .error e => ⟨.error e, step.t, step.evs⟩
  | .ok vals =>
    match vals with
    | [v0] =>
      match cfg.getProcess v0 with
      | .error e => ⟨.error e, step.t, step.evs⟩
      | .ok value =>
        if !cfg.mapValues then ⟨.ok (.scalar value), step.t, step.evs⟩
        else
          match controlDecode cfg.values value with
          | .ok w => ⟨.ok (.scalar w), step.t, step.evs⟩
          | .error e => ⟨.error e, step.t, step.evs⟩
    | _ =>
      match cfg.getProcessMulti vals with
      | .error e => ⟨.error e, step.t, step.evs⟩
      | .ok ws => ⟨.ok (.multi ws), step.t, step.evs⟩

/-- The configuration captured by one `Instrument.setting(...)` binding. -/
structure SettingCfg where
  setFmt : PyVal → String
  validator : PyVal → Domain → Except PyErr PyVal
  values : Domain
  mapValues : Bool
  setProcess : PyVal → Except PyErr PyVal
  checkSetErrors : Bool
  syncMethod : Option String
  sp : SyncParams

/-- `setting`'s `fget` (source lines 405-406): always raises
`LookupError`. -/
def settingFget (t : Transport) : Outcome GetResult :=
  ⟨.error (.lookupError "Instrument.setting properties can not be read."),
    t, []⟩

/-- `setting`'s `fset` (source lines 408-429): identical in structure to
`control`'s set path. -/
def settingFset (cfg : SettingCfg) (v : PyVal) (t : Transport) :
    Outcome Unit :=
  match cfg.validator v cfg.values with
  | .error e => ⟨.error e, t, []⟩
  | .ok v1 =>
    match cfg.setProcess v1 with
    | .error e => ⟨.error e, t, []⟩
    | .ok v2 =>
      let enc : Except PyErr PyVal :=
        if !cfg.mapValues then .ok v2 else controlEncode cfg.values v2
      match enc with
      | .error e => ⟨.error e, t, []⟩
      | .ok v3 =>
        match cfg.syncMethod with
        | none => wr (cfg.setFmt v3) t
        | some m =>
          if m = "opc_query" ∨ m = "stb_polling" then
            write_sync (cfg.setFmt v3) m cfg.sp t
          else
            ⟨.error (.valueError (m ++ " is not in [opc_query, stb_polling]")),
              t, []⟩

/-- A Python `property` instance: an optional getter and an optional setter,
as built by the three binders. -/
structure PyProperty where
  fget : Option (Transport → Outcome GetResult)
  fset : Option (PyVal → Transport → Outcome Unit)

/-- `Instrument.control(...)` returns `property(fget, fset)`. -/
def Instrument.control (cfg : ControlCfg) : PyProperty :=
  ⟨some (controlFget cfg), some (controlFset cfg)⟩

/-- `Instrument.measurement(...)` returns `property(fget)`: a property with
no setter. -/
def Instrument.measurement (cfg : MeasurementCfg) : PyProperty :=
  ⟨some (measurementFget cfg), none⟩

/-- `Instrument.setting(...)` returns `property(fget, fset)` with the
always-raising getter. -/
def Instrument.setting (cfg : SettingCfg) : PyProperty :=
  ⟨some (fun t => settingFget t), some (settingFset cfg)⟩

/-- Reading a `property`: Python's descriptor protocol raises
`AttributeError` when the property has no getter, without touching the
transport. -/
def propGet (p : PyProperty) (t : Transport) : Outcome GetResult :=
  match p.fget with
  | none => ⟨.error (.attributeError "unreadable attribute"), t, []⟩
  | some f => f t

/-- Writing a `property`: Python's descriptor protocol raises
`AttributeError` when the property has no setter, without touching the
transport. -/
def propSet (p : PyProperty) (v : PyVal) (t : Transport) : Outcome Unit :=
  match p.fset with
  | none => ⟨.error (.attributeError "property has no setter"), t, []⟩
  | some f => f v t

/-! ## Trace predicates and the spec-side error-distinctness notion -/

/-- Is the event a status-byte read? -/
def isReadStbEv : Ev → Bool
  | .readStb _ => true
  | _ => false

/-- Is the event a sleep? -/
def isSleepEv : Ev → Bool
  | .sleep _ => true
  | _ => false

/-- Is the event one of the four produced inside the polling loop (read the
status byte, sleep, mask test, timeout test)?  Command sends and line reads
are not. -/
def isPollEv : Ev → Bool
  | .readStb _ => true
  | .sleep _ => true
  | .maskCheck _ => true
  | .timeoutCheck _ => true
  | _ => false

/-- True when no timeout test occurs in the trace before the first
status-byte read. -/
def noTimeoutCheckBeforeRead : List Ev → Bool
  | [] => true
  | .timeoutCheck _ :: _ => false
  | .readStb _ :: _ => true
  | _ :: rest => noTimeoutCheckBeforeRead rest

/-- Helper for `sleepsImmediatelyAfterRead`: scan the trace remembering the
previous event; every sleep must be immediately preceded by a status-byte
read. -/
def sarAux : Ev → List Ev → Bool
  | _, [] => true
  | prev, e :: rest =>
    (if isSleepEv e then isReadStbEv prev else true) && sarAux e rest

/-- True when every sleep in the trace comes immediately after a status-byte
read (in particular the trace does not begin with a sleep). -/
def sleepsImmediatelyAfterRead : List Ev → Bool
  | [] => true
  | e :: rest => !(isSleepEv e) && sarAux e rest

/-- Modelled from the spec (section 7): a raised error is surfaced "as a
distinct, catchable condition" — one the caller can catch while letting
other device and transport errors propagate — precisely when its exception
class is a proper subclass of the base `Exception` class.  An error raised
as the bare base class can only be caught by a handler that catches every
exception, so it is not distinct. -/
def isDistinctCatchableCondition : PyErr → Bool
  | .exceptionBase _ => false
  | _ => true

/-! ## Helper lemmas -/

theorem pySplit_ne_nil (sep : Char) : ∀ l : List Char, pySplit sep l ≠ [] := by
  intro l
  cases l with
  | nil => simp [pySplit]
  | cons c cs =>
    simp only [pySplit]
    by_cases h : c = sep
    · simp [h]
    · simp only [if_neg h]
      cases hs : pySplit sep cs with
      | nil => simp
      | cons seg segs => simp

theorem pySplit_headD (sep : Char) :
    ∀ l : List Char,
      (pySplit sep l).headD [] = l.takeWhile (fun c => !(c = sep : Bool)) := by
  intro l
  induction l with
  | nil => rfl
  | cons c cs ih =>
    simp only [pySplit, List.takeWhile]
    by_cases h : c = sep
    · simp [h]
    · simp only [if_neg h, decide_eq_true_eq]
      cases hs : pySplit sep cs with
      | nil => exact absurd hs (pySplit_ne_nil sep cs)
      | cons seg segs =>
        simp only [List.headD_cons]
        rw [hs] at ih
        simp only [List.headD_cons] at ih
        simp [h, ih]

theorem splitFirst_eq_takeWhile (sep : Char) (s : String) :
    splitFirst sep s = String.mk (s.data.takeWhile (fun c => !(c = sep : Bool))) := by
  unfold splitFirst
  rw [pySplit_headD]

theorem pyIndexCore_of_mem {v : PyVal} :
    ∀ {xs : List PyVal}, v ∈ xs → ∃ i, pyIndexCore v xs = some i := by
  intro xs
  induction xs with
  | nil => intro h; cases h
  | cons x xs ih =>
    intro h
    by_cases hx : x = v
    · exact ⟨0, by simp [pyIndexCore, hx]⟩
    · have hmem : v ∈ xs := by
        cases h with
        | head => exact absurd rfl hx
        | tail _ h2 => exact h2
      obtain ⟨i, hi⟩ := ih hmem
      exact ⟨i + 1, by simp [pyIndexCore, hx, hi]⟩

theorem pyIndexCore_get {v : PyVal} :
    ∀ {xs : List PyVal} {i : Nat},
      pyIndexCore v xs = some i → xs.get? i = some v := by
  intro xs
  induction xs with
  | nil => intro i h; simp [pyIndexCore] at h
  | cons x xs ih =>
    intro i h
    by_cases hx : x = v
    · simp [pyIndexCore, hx] at h
      subst h
      simp [hx]
    · simp [pyIndexCore, hx] at h
      obtain ⟨j, hj, hij⟩ := h
      subst hij
      simpa using ih hj

theorem sarAux_of_siar {l : List Ev} (h : sleepsImmediatelyAfterRead l = true)
    (p : Ev) : sarAux p l = true := by
  cases l with
  | nil => rfl
  | cons e rest =>
    simp only [sleepsImmediatelyAfterRead, Bool.and_eq_true, Bool.not_eq_true'] at h
    simp only [sarAux, Bool.and_eq_true]
    exact ⟨by simp [h.1], h.2⟩

theorem stbPollingLoop_trace (timeout interval : Rat) (mask : Nat)
    (start : Rat) :
    ∀ (fuel : Nat) (t : Transport),
      sleepsImmediatelyAfterRead
          (stbPollingLoop timeout interval mask start fuel t).evs = true ∧
      noTimeoutCheckBeforeRead
          (stbPollingLoop timeout interval mask start fuel t).evs = true := by
  intro fuel
  induction fuel with
  | zero => intro t; exact ⟨rfl, rfl⟩
  | succ n ih =>
    intro t
    simp only [stbPollingLoop]
    by_cases h1 : t.stb t.stbReads &&& mask != 0
    · simp only [h1, if_true]
      constructor <;>
        simp [sleepsImmediatelyAfterRead, sarAux, isSleepEv, isReadStbEv,
          noTimeoutCheckBeforeRead]
    · simp only [h1, if_false, Bool.false_eq_true]
      by_cases h2 : t.clock + interval - start > timeout
      · simp only [if_pos h2]
        constructor <;>
          simp [sleepsImmediatelyAfterRead, sarAux, isSleepEv, isReadStbEv,
            noTimeoutCheckBeforeRead]
      · simp only [if_neg h2]
        have ihr := ih { t with stbReads := t.stbReads + 1,
                                clock := t.clock + interval }
        constructor
        · simp only [List.cons_append, List.nil_append,
            sleepsImmediatelyAfterRead, sarAux, isSleepEv, isReadStbEv,
            if_true, if_false, Bool.true_and, Bool.not_false]
          exact sarAux_of_siar ihr.1 _
        · simp [List.cons_append, noTimeoutCheckBeforeRead]

theorem stbPollingLoop_timeout (timeout interval : Rat) (mask : Nat)
    (start : Rat) :
    ∀ (fuel : Nat) (t : Transport),
      (∀ i, t.stb i &&& mask = 0) →
      t.clock - start ≤ timeout →
      timeout < t.clock - start + fuel * interval →
      (stbPollingLoop timeout interval mask start fuel t).res
          = .error (.exceptionBase "STB polling timeout") ∧
      (stbPollingLoop timeout interval mask start fuel t).evs.getLast?
          = some (.timeoutCheck true) := by
  intro fuel
  induction fuel with
  | zero =>
    intro t hstb hle hlt
    exfalso
    push_cast at hlt
    linarith
  | succ n ih =>
    intro t hstb hle hlt
    simp only [stbPollingLoop]
    have hmask : (t.stb t.stbReads &&& mask != 0) = false := by
      simp [hstb t.stbReads]
    simp only [hmask, Bool.false_eq_true, if_false]
    by_cases h2 : t.clock + interval - start > timeout
    · simp only [if_pos h2]
      exact ⟨trivial, rfl⟩
    · simp only [if_neg h2]
      have hle2 : t.clock + interval - start ≤ timeout := by
        have := not_lt.mp h2
        linarith
      have hlt2 : timeout <
          t.clock + interval - start + (n : Rat) * interval := by
        push_cast at hlt
        linarith
      have ihr := ih { t with stbReads := t.stbReads + 1,
                              clock := t.clock + interval } hstb hle2 hlt2
      refine ⟨ihr.1, ?_⟩
      have hne : (stbPollingLoop timeout interval mask start n
          { t with stbReads := t.stbReads + 1,
                   clock := t.clock + interval }).evs ≠ [] := by
        intro hnil
        rw [hnil] at ihr
        simp at ihr
      rw [List.getLast?_append_of_ne_nil _ hne]
      exact ihr.2

theorem stbPollingLoop_evs_poll (timeout interval : Rat) (mask : Nat)
    (start : Rat) :
    ∀ (fuel : Nat) (t : Transport) (e : Ev),
      e ∈ (stbPollingLoop timeout interval mask start fuel t).evs →
      isPollEv e = true := by
  intro fuel
  induction fuel with
  | zero => intro t e h; simp [stbPollingLoop] at h
  | succ n ih =>
    intro t e h
    simp only [stbPollingLoop] at h
    by_cases h1 : t.stb t.stbReads &&& mask != 0
    · simp only [h1, if_true] at h
      simp only [List.mem_cons, List.not_mem_nil, or_false] at h
      rcases h with rfl | rfl | rfl <;> rfl
    · simp only [h1, Bool.false_eq_true, if_false] at h
      by_cases h2 : t.clock + interval - start > timeout
      · simp only [if_pos h2] at h
        simp only [List.cons_append, List.nil_append, List.mem_cons,
          List.not_mem_nil, or_false] at h
        rcases h with rfl | rfl | rfl | rfl <;> rfl
      · simp only [if_neg h2] at h
        simp only [List.cons_append, List.nil_append, List.mem_cons] at h
        rcases h with rfl | rfl | rfl | rfl | h
        · rfl
        · rfl
        · rfl
        · rfl
        · exact ih _ _ h

/-! ## Concrete fixtures used by witnesses and counterexamples -/

/-- A transport with the given pending line replies, no pending tokenized
replies, a status byte constantly 0, and the clock at 0. -/
def mkT (replies : List String) : Transport :=
  ⟨replies, [], fun _ => 0, 0, 0⟩

/-- A membership validator in the style the binding system expects: reject a
value not contained in an ordered domain with `ValueError`. -/
def strictSetValidator (v : PyVal) (d : Domain) : Except PyErr PyVal :=
  match d with
  | .seq xs =>
    if v ∈ xs then .ok v else .error (.valueError "value not in allowed set")
  | _ => .ok v

/-- Sample rendering of `set_command % value`. -/
def fmtNum : PyVal → String
  | .int n => toString n
  | .rat q => toString q
  | .str s => s
  | .bool b => if b then "True" else "False"

/-- A sample ordered domain. -/
def sampleDomain : Domain := .seq [.int 1, .int 2, .int 3]

/-- A sample `control` binding configuration with the strict validator and
no synchronization. -/
def sampleControlCfg : ControlCfg :=
  ⟨"VOLT?", fun v => "VOLT " ++ fmtNum v, strictSetValidator, sampleDomain,
    false, fun v => .ok v, fun vs => .ok vs, fun v => .ok v, false, false,
    none, none, defaultSP⟩

/-- A sample `setting` binding configuration with the strict validator and
no synchronization. -/
def sampleSettingCfg : SettingCfg :=
  ⟨fun v => "VOLT " ++ fmtNum v, strictSetValidator, sampleDomain, false,
    fun v => .ok v, false, none, defaultSP⟩

/-- A transport whose status byte never satisfies any mask. -/
def neverReadyT : Transport := ⟨[], [], fun _ => 0, 0, 0⟩

/-- Small synchronization parameters: timeout 1 s, interval 1 s, the default
mask, loop bound 3. -/
def smallSP : SyncParams := ⟨1, 1, 32, 3⟩

/-! ## Claim theorems -/

/-- Claim C4: in completion-query (`opc_query`) mode, when the transport
reply to the compound command is `"3.14;1"`, `ask_sync` returns `"3.14"`:
the first semicolon-delimited segment, with the trailing completion-status
token discarded.  The emitted events show the compound command that was
transmitted. -/
theorem c4_opc_reply_strip :
    (ask_sync "MEAS?" "opc_query" defaultSP (mkT ["3.14;1"])).res
        = .ok "3.14" ∧
    (ask_sync "MEAS?" "opc_query" defaultSP (mkT ["3.14;1"])).evs
        = [.send "MEAS?;*OPC?", .readLine "3.14;1"] := by
  constructor <;> rfl

/-- Claim C7: a read-only field built by `Instrument.measurement` is a
property without a setter, so every write attempt fails (with the
`AttributeError` through which Python surfaces writes to read-only fields)
and the transport is untouched: no event at all, in particular no send, is
produced. -/
theorem c7_measurement_readonly (cfg : MeasurementCfg) (v : PyVal)
    (t : Transport) :
    propSet (Instrument.measurement cfg) v t
      = ⟨.error (.attributeError "property has no setter"), t, []⟩ := rfl

/-- Claim C3: when the bound validator rejects a value with `InvalidValue`
(`ValueError`), the set path of both `control` and `setting` fails with that
error and produces no transport event: the validator runs before any write,
so nothing is sent. -/
theorem c3_invalid_value_no_write (cfg : ControlCfg) (scfg : SettingCfg)
    (v : PyVal) (msg : String) (t : Transport)
    (hc : cfg.validator v cfg.values = .error (.valueError msg))
    (hs : scfg.validator v scfg.values = .error (.valueError msg)) :
    controlFset cfg v t = ⟨.error (.valueError msg), t, []⟩ ∧
    settingFset scfg v t = ⟨.error (.valueError msg), t, []⟩ := by
  constructor
  · simp [controlFset, hc]
  · simp [settingFset, hs]

/-- Witness for C3 at a concrete rejected value. -/
theorem c3_witness :
    controlFset sampleControlCfg (.int 5) (mkT [])
        = ⟨.error (.valueError "value not in allowed set"), mkT [], []⟩ ∧
    settingFset sampleSettingCfg (.int 5) (mkT [])
        = ⟨.error (.valueError "value not in allowed set"), mkT [], []⟩ :=
  c3_invalid_value_no_write sampleControlCfg sampleSettingCfg (.int 5)
    "value not in allowed set" (mkT []) (by rfl) (by rfl)

/-- Claim C5: for every value `v` in an ordered domain, the set path's
encode step (`values.index(value)`) followed by the get path's decode step
(`values[int(value)]`) returns `v` exactly. -/
theorem c5_ordered_roundtrip (xs : List PyVal) (v : PyVal) (hv : v ∈ xs) :
    ∃ i : Nat, controlEncode (.seq xs) v = .ok (.int i) ∧
      controlDecode (.seq xs) (.int i) = .ok v := by
  obtain ⟨i, hi⟩ := pyIndexCore_of_mem hv
  refine ⟨i, ?_, ?_⟩
  · simp [controlEncode, hi]
  · have hg := pyIndexCore_get hi
    rw [List.get?_eq_getElem?] at hg
    have h0 : ¬ ((i : Int) < 0) := not_lt.mpr (Int.natCast_nonneg i)
    simp [controlDecode, pyInt, pyGetItem, h0, Int.natCast_nonneg, hg]

/-- Witness for C5 at a concrete domain member. -/
theorem c5_witness :
    ∃ i : Nat,
      controlEncode (.seq [.int 10, .int 20]) (.int 20) = .ok (.int i) ∧
      controlDecode (.seq [.int 10, .int 20]) (.int i) = .ok (.int 20) :=
  c5_ordered_roundtrip [.int 10, .int 20] (.int 20) (by decide)

/-- Claim C6: `values_sync` with boolean target cast parses each token as a
number first (nonzero means true, zero means false; a non-empty token is
never cast to boolean directly), keeps unparsable tokens as their original
strings, and on input `"1,0,abc"` with separator `,` yields
`[true, false, "abc"]`. -/
theorem c6_bool_cast_decode :
    (values_sync "READ?" ',' .toBool "opc_query" defaultSP
        (mkT ["1,0,abc"])).res
      = .ok [.bool true, .bool false, .str "abc"] ∧
    (∀ s : String, pyFloat s = none → applyCast .toBool s = .str s) ∧
    (∀ (s : String) (q : Rat), pyFloat s = some q →
      applyCast .toBool s = .bool (decide (q ≠ 0))) := by
  refine ⟨by rfl, ?_, ?_⟩
  · intro s h
    simp [applyCast, h]
  · intro s q h
    simp [applyCast, h]

/-- Witness for C6: the failed-cast token keeps its text and a nonzero
numeric token becomes true. -/
theorem c6_witness :
    applyCast .toBool "abc" = .str "abc" ∧
    applyCast .toBool "1" = .bool true := by
  constructor
  · exact c6_bool_cast_decode.2.1 "abc" (by decide)
  · have h := c6_bool_cast_decode.2.2 "1" 1 (by decide)
    simpa using h

/-- Claim C8: the status-polling loop never performs a timeout check before
at least one status-byte read has completed, and every sleep in the trace
comes immediately after a status read, never before one. -/
theorem c8_poll_read_before_checks (sp : SyncParams) (t : Transport) :
    noTimeoutCheckBeforeRead (stb_polling sp t).evs = true ∧
    sleepsImmediatelyAfterRead (stb_polling sp t).evs = true := by
  have h := stbPollingLoop_trace sp.timeout sp.interval sp.mask t.clock
    sp.fuel t
  exact ⟨h.2, h.1⟩

/-- Counterexample to claim C1 as stated: invoking `write_sync` directly
with the unrecognized mode string `"bogus"` does not fail — it succeeds and
transmits the plain command, i.e. it falls back to the `none` behaviour. -/
theorem c1_counterexample :
    (write_sync "CMD" "bogus" defaultSP (mkT [])).res = .ok () ∧
    (write_sync "CMD" "bogus" defaultSP (mkT [])).evs = [.send "CMD"] := by
  constructor <;> rfl

/-- Claim C1 (amended): a generated accessor (`control` get or set path)
configured with an unrecognized non-`None` mode fails fast with the
configuration `ValueError` and produces no transport event; but `write_sync`
and `ask_sync` invoked directly with an unrecognized mode string fall back
to the plain `none` behaviour (plain write, plain ask). -/
theorem c1_unknown_mode (m : String)
    (h1 : m ≠ "opc_query") (h2 : m ≠ "stb_polling") :
    (∀ (cfg : ControlCfg) (t : Transport), cfg.getSyncMethod = some m →
      controlFget cfg t =
        ⟨.error (.valueError (m ++ " is not in [opc_query, stb_polling]")),
          t, []⟩) ∧
    (∀ (cfg : ControlCfg) (v : PyVal) (t : Transport),
      cfg.setSyncMethod = some m → cfg.mapValues = false →
      cfg.validator v cfg.values = .ok v → cfg.setProcess v = .ok v →
      controlFset cfg v t =
        ⟨.error (.valueError (m ++ " is not in [opc_query, stb_polling]")),
          t, []⟩) ∧
    (∀ (cmd : String) (sp : SyncParams) (t : Transport),
      write_sync cmd m sp t = ⟨.ok (), t, [.send cmd]⟩) ∧
    (∀ (cmd : String) (sp : SyncParams) (t : Transport) (r : String)
        (rest : List String), t.replies = r :: rest →
      ask_sync cmd m sp t =
        ⟨.ok (splitFirst ';' r), { t with replies := rest },
          [.send cmd, .readLine r]⟩) := by
  refine ⟨?_, ?_, ?_, ?_⟩
  · intro cfg t hm
    simp [controlFget, hm, h1, h2]
  · intro cfg v t hm hmap hval hproc
    simp [controlFset, hm, hmap, hval, hproc, h1, h2]
  · intro cmd sp t
    simp [write_sync, wr, h1, h2]
  · intro cmd sp t r rest hr
    simp [ask_sync, askT, wr, rd, hr, h1, h2]

/-- Witness for C1 (amended) at the concrete unrecognized mode `"typo"`. -/
theorem c1_witness :
    write_sync "CMD2" "typo" defaultSP (mkT [])
      = ⟨.ok (), mkT [], [.send "CMD2"]⟩ :=
  (c1_unknown_mode "typo" (by decide) (by decide)).2.2.1 "CMD2" defaultSP
    (mkT [])

/-- Counterexample to claim C2 as stated: the error `stb_polling` raises on
timeout is the bare base `Exception` class, which is not a distinct,
catchable condition — a handler for it necessarily catches every other
device or transport error too. -/
theorem c2_counterexample :
    (stb_polling smallSP neverReadyT).res
        = .error (.exceptionBase "STB polling timeout") ∧
    isDistinctCatchableCondition (.exceptionBase "STB polling timeout")
        = false := by
  constructor
  · have h := stbPollingLoop_timeout smallSP.timeout smallSP.interval
      smallSP.mask neverReadyT.clock smallSP.fuel neverReadyT
      (by intro i; simp [neverReadyT, smallSP])
      (by norm_num [neverReadyT, smallSP])
      (by norm_num [neverReadyT, smallSP])
    exact h.1
  · rfl

/-- Claim C2 (amended): when no status-byte read satisfies the mask before
the timeout elapses, `stb_polling` fails by raising the generic
`Exception("STB polling timeout")` (distinguishable only by its message, not
by a distinct exception class), and the wait is not retried: the failing
timeout check is the last event of the wait. -/
theorem c2_timeout_terminal (sp : SyncParams) (t : Transport)
    (hstb : ∀ i, t.stb i &&& sp.mask = 0)
    (h0 : 0 ≤ sp.timeout)
    (hfuel : sp.timeout < sp.fuel * sp.interval) :
    (stb_polling sp t).res = .error (.exceptionBase "STB polling timeout") ∧
    (stb_polling sp t).evs.getLast? = some (.timeoutCheck true) := by
  have h := stbPollingLoop_timeout sp.timeout sp.interval sp.mask t.clock
    sp.fuel t hstb (by simpa using h0) (by simpa using hfuel)
  exact h

/-- Witness for C2 (amended) at concrete parameters. -/
theorem c2_witness :
    (stb_polling smallSP neverReadyT).res
        = .error (.exceptionBase "STB polling timeout") ∧
    (stb_polling smallSP neverReadyT).evs.getLast?
        = some (.timeoutCheck true) :=
  c2_timeout_terminal smallSP neverReadyT
    (by intro i; simp [neverReadyT, smallSP])
    (by norm_num [smallSP]) (by norm_num [smallSP])

/-- Claim C9: in status-polling mode, `write_sync` performs the three-step
handshake in exactly this order: first enable the status-enable bits
(`*ESE 1`) and read back the enable register (`*ESE?`) and the event-status
register (`*ESR?`), then transmit the real command concatenated with the
completion-trigger suffix `";*OPC"` (a command, not a query), and only then
enter the polling loop — whose events are exclusively polling events, never
further sends. -/
theorem c9_stb_handshake (cmd : String) (sp : SyncParams) (t : Transport)
    (r1 r2 : String) (rest : List String)
    (h : t.replies = r1 :: r2 :: rest) :
    (write_sync cmd "stb_polling" sp t).evs =
      [.send "*ESE 1", .send "*ESE?", .readLine r1, .send "*ESR?",
        .readLine r2, .send (cmd ++ ";*OPC")]
      ++ (stb_polling sp { t with replies := rest }).evs ∧
    (∀ e ∈ (stb_polling sp { t with replies := rest }).evs,
      isPollEv e = true) := by
  constructor
  · simp [write_sync, wr, rd, askT, h]
  · intro e he
    exact stbPollingLoop_evs_poll _ _ _ _ _ _ e he

/-- Witness for C9 at a concrete transport. -/
theorem c9_witness :
    (write_sync "INIT" "stb_polling" smallSP (mkT ["1", "0"])).evs =
      [.send "*ESE 1", .send "*ESE?", .readLine "1", .send "*ESR?",
        .readLine "0", .send "INIT;*OPC"]
      ++ (stb_polling smallSP { mkT ["1", "0"] with replies := [] }).evs :=
  (c9_stb_handshake "INIT" smallSP (mkT ["1", "0"]) "1" "0" [] rfl).1

/-- Claim C10: in every synchronization mode — the fallback (`none`) path,
`opc_query`, and `stb_polling` alike — `ask_sync` returns only the part of
the raw device response that precedes the first `";"`; a payload that itself
contains a `";"` is truncated there even when no completion-query suffix
was appended to the command. -/
theorem c10_always_truncates_at_semicolon :
    (∀ (cmd m : String) (sp : SyncParams) (t : Transport) (r : String)
        (rest : List String), m ≠ "opc_query" → m ≠ "stb_polling" →
      t.replies = r :: rest →
      (ask_sync cmd m sp t).res =
        .ok (String.mk (r.data.takeWhile (fun c => !(c = ';' : Bool))))) ∧
    (∀ (cmd : String) (sp : SyncParams) (t : Transport) (r : String)
        (rest : List String), t.replies = r :: rest →
      (ask_sync cmd "opc_query" sp t).res =
        .ok (String.mk (r.data.takeWhile (fun c => !(c = ';' : Bool))))) ∧
    (∀ (cmd : String) (sp : SyncParams) (t : Transport) (r1 r2 r3 : String)
        (rest : List String), t.replies = r1 :: r2 :: r3 :: rest →
      t.stb t.stbReads &&& sp.mask ≠ 0 → 0 < sp.fuel →
      (ask_sync cmd "stb_polling" sp t).res =
        .ok (String.mk (r3.data.takeWhile (fun c => !(c = ';' : Bool))))) := by
  refine ⟨?_, ?_, ?_⟩
  · intro cmd m sp t r rest h1 h2 hr
    rw [← splitFirst_eq_takeWhile]
    simp [ask_sync, askT, wr, rd, hr, h1, h2]
  · intro cmd sp t r rest hr
    rw [← splitFirst_eq_takeWhile]
    simp [ask_sync, wr, rd, hr]
  · intro cmd sp t r1 r2 r3 rest hr hstb hfuel
    rw [← splitFirst_eq_takeWhile]
    obtain ⟨n, hn⟩ : ∃ n, sp.fuel = n + 1 :=
      ⟨sp.fuel - 1, (Nat.succ_pred_eq_of_pos hfuel).symm⟩
    have hb : (t.stb t.stbReads &&& sp.mask != 0) = true := by
      simpa [bne_iff_ne] using hstb
    simp [ask_sync, write_sync, askT, wr, rd, hr, stb_polling, hn,
      stbPollingLoop, hb, Except.map]

/-- Witness for C10: in the fallback mode the response `"12;34"` comes back
truncated to `"12"` although no completion suffix was sent. -/
theorem c10_witness :
    (ask_sync "Q?" "none" defaultSP (mkT ["12;34"])).res = .ok "12" := by
  have h := c10_always_truncates_at_semicolon.1 "Q?" "none" defaultSP
    (mkT ["12;34"]) "12;34" [] (by decide) (by decide) rfl
  rw [h]
  rfl
